import Mathlib

/-!
Verification development for the recursive project-cloning logic of
`actions/template_action.py` (class `CreateProjectFromCopyAction`).

The embedding models:
* the source hierarchy nodes handed to `_clone_recursive` (ftrack entities,
  read through `child.get(...)` / `child['...']` accesses),
* the ftrack session as explicit state: entities created but not yet
  committed (`pending`), entities committed to the server (`committed`,
  in commit order), and the id counter used to mint fresh entity ids,
* the outcome of a `session.commit()` call through an environment oracle
  `Env` deciding, per create attempt, whether the server accepts it,
  raises `ftrack_api.exception.ServerError` with some message, or raises
  an exception of any other Python class,
* `_clone_recursive` itself as a fuel-indexed recursive function
  (`cloneLoop` / `cloneRecursive`); fuel exhaustion returns the state
  reached so far (a termination artifact only: the real code runs on
  finite acyclic trees, and all per-node facts below take one unfolding).

Custom-attribute writes (template_action.py lines 271-278) always
immediately follow the successful creation commit of the same node and, in
the model, never fail; they are therefore folded into the `Entity` record
at creation time as the field `custom_attributes`, computed by the
schema-gated copy `gatedAttrCopy` (lines 272-275).
-/

/-- A node of the source hierarchy as read by `_clone_recursive`:
`entity_type` is `source_child.entity_type`; `sort` and `position` model
`child.get('sort')` / `child.get('position')` (absent key = `none`);
`description`, `object_type_id`, `fstart`, `fend`, `type` model the
corresponding `get` accesses; `custom_attributes` is the source node's
custom-attribute mapping; `children` the child list. -/
structure SrcNode where
  entity_type : String
  name : String
  sort : Option Int
  position : Option Int
  description : Option String
  object_type_id : Option String
  fstart : Option Int
  fend : Option Int
  type : Option String
  custom_attributes : List (String × String)
  children : List SrcNode

/-- Python truthiness for `a or b` on an optional integer: `None` and `0`
are falsy, so the expression falls through to `b`. -/
def pyOr (a : Option Int) (b : Int) : Int :=
  match a with
  | some v => if v = 0 then b else v
  | none => b

/-- The sort key of template_action.py line 192:
`child.get('sort') or child.get('position') or 0`. -/
def sortKey (c : SrcNode) : Int :=
  pyOr c.sort (pyOr c.position 0)

/-- The ordering relation induced by `sortKey`. -/
def keyLe (a b : SrcNode) : Prop :=
  sortKey a ≤ sortKey b

instance : DecidableRel keyLe := fun a b => Int.decLe (sortKey a) (sortKey b)

instance : IsTotal SrcNode keyLe := ⟨fun a b => Int.le_total (sortKey a) (sortKey b)⟩

instance : IsTrans SrcNode keyLe := ⟨fun _ _ _ h1 h2 => le_trans h1 h2⟩

/-- `sorted(source_parent['children'], key=...)` of line 190: Python's
`sorted` is the stable ascending sort by the key, which is extensionally
the stable insertion sort by `keyLe`. -/
def sortedChildren (l : List SrcNode) : List SrcNode :=
  List.insertionSort keyLe l

/-- The candidate attribute dictionary `new_child_data` built at
template_action.py lines 201-218.  A field of type `Option (Option _)` is
`none` when the key is absent from the dictionary and `some v` when the
key is present with (possibly `None`) value `v`.  `parentId` is the
`parent` entry, referring to the target parent by id. -/
structure ChildData where
  name : String
  parentId : Nat
  description : String
  object_type_id : Option String
  fstart : Option (Option Int)
  fend : Option (Option Int)
  type : Option (Option String)
deriving DecidableEq

/-- Lines 201-218: base data plus `object_type_id` when the source exposes
one, frame range keys for `Shot`, and the `type` key for `Task`. -/
def buildChildData (tpId : Nat) (c : SrcNode) : ChildData :=
  { name := c.name
    parentId := tpId
    description := c.description.getD ""
    object_type_id := c.object_type_id
    fstart := if c.entity_type = "Shot" then some c.fstart else none
    fend := if c.entity_type = "Shot" then some c.fend else none
    type := if c.entity_type = "Task" then some c.type else none }

/-- Lines 249-251: before retrying as a `Folder`, the code pops
`object_type_id`, `fstart` and `fend` from `new_child_data`.  The `type`
key set for `Task` sources (line 218) is not popped. -/
def toFallbackData (d : ChildData) : ChildData :=
  { d with object_type_id := none, fstart := none, fend := none }

/-- Outcome of one `session.commit()` as seen by the except-ladder of
lines 227-268: success, `ftrack_api.exception.ServerError` with a message
string, or an exception of any other class. -/
inductive CommitOutcome where
  | ok
  | serverError (msg : String)
  | otherError (msg : String)
deriving DecidableEq

/-- The server oracle: decides the outcome of committing a create attempt
of the given entity type with the given data. -/
def Env := String → ChildData → CommitOutcome

/-- The target schema oracle: the custom-attribute keys defined for a
newly created entity of the given entity type (the keys of
`new_child['custom_attributes']`, line 274). -/
def Schema := String → List String

/-- A created target entity: fresh id, entity type actually used for the
create call, the data dictionary passed, and the custom attributes copied
onto it after creation (lines 271-278, schema-gated). -/
structure Entity where
  id : Nat
  entity_type : String
  data : ChildData
  custom_attributes : List (String × String)
deriving DecidableEq

/-- The ftrack session state: fresh-id counter, committed entities in
commit order, and created-but-uncommitted entities. -/
structure Session where
  nextId : Nat
  committed : List Entity
  pending : List Entity
deriving DecidableEq

/-- `session.create(...)`: a purely local operation adding an uncommitted
entity to the session. -/
def s_create (s : Session) (etype : String) (d : ChildData)
    (attrs : List (String × String)) : Entity × Session :=
  let e : Entity := ⟨s.nextId, etype, d, attrs⟩
  (e, ⟨s.nextId + 1, s.committed, s.pending ++ [e]⟩)

/-- `session.rollback()`: discards all uncommitted operations. -/
def s_rollback (s : Session) : Session :=
  ⟨s.nextId, s.committed, []⟩

/-- The server's verdict on a batch of pending entities: the first
rejected one determines the raised exception. -/
def commitCheck (env : Env) : List Entity → CommitOutcome
  | [] => .ok
  | e :: rest =>
    match env e.entity_type e.data with
    | .ok => commitCheck env rest
    | r => r

/-- `session.commit()`: on success all pending entities become committed,
in order; on failure the exception is raised and the pending operations
remain in the session (until some later `rollback`). -/
def s_commit (env : Env) (s : Session) : CommitOutcome × Session :=
  match commitCheck env s.pending with
  | .ok => (.ok, ⟨s.nextId, s.committed ++ s.pending, []⟩)
  | r => (r, s)

/-- The schema-gated custom-attribute copy of lines 272-275: a source
key/value pair is written to the new entity iff the key is among the new
entity's custom-attribute keys. -/
def gatedAttrCopy (srcAttrs : List (String × String))
    (targetKeys : List String) : List (String × String) :=
  srcAttrs.filter (fun kv => targetKeys.contains kv.1)

/-- The unconditional custom-attribute copy of `_clone_project`
(lines 176-177): every source key is written to the new project, with no
membership check against the target's custom-attribute keys (the
`targetKeys` argument is not consulted). -/
def projectAttrCopy (srcAttrs : List (String × String))
    (_targetKeys : List String) : List (String × String) :=
  srcAttrs

/-- Whether `pat` is a prefix of the character list `l`. -/
def listHasPre : List Char → List Char → Bool
  | [], _ => true
  | _ :: _, [] => false
  | p :: ps, c :: cs => p == c && listHasPre ps cs

/-- Whether `pat` occurs as a contiguous sublist of the character list. -/
def listHasSub (pat : List Char) : List Char → Bool
  | [] => pat.isEmpty
  | c :: cs => listHasPre pat (c :: cs) || listHasSub pat cs

/-- Python's `pat in s` substring test (lines 231 and 239), over the
strings' character lists. -/
def hasSubstr (s pat : String) : Bool :=
  listHasSub pat.data s.data

/-- The per-node outcome vocabulary of the specification; ghost data
recording what the control flow of lines 220-282 did for each node.  The
swallowed unexpected-exception path (lines 265-268) is recorded as
`skippedFailed` with the exception message. -/
inductive CloneResult where
  | created (kind : String)
  | createdAsFallback (origKind fallbackKind : String)
  | skippedDuplicate
  | skippedFailed (reason : String)
deriving DecidableEq

/-- The designated leaf kinds of line 281. -/
def leafKinds : List String := ["Task", "Milestone"]

/-- The body of `_clone_recursive` (lines 185-282) over an already-sorted
worklist of remaining siblings.  `tpId` is the target parent's id.  The
result is `.error (msg, s)` when a `ServerError` that is neither a
duplicate-entry nor a validation error is re-raised (line 264), aborting
the traversal; otherwise the final session and the per-node records.
Fuel `0` returns the state reached so far (termination artifact). -/
def cloneLoop (env : Env) (schema : Schema) :
    Nat → Nat → List SrcNode → Session →
    Except (String × Session) (Session × List CloneResult)
  | 0, _, _, s => .ok (s, [])
  | _ + 1, _, [], s => .ok (s, [])
  | fuel + 1, tpId, c :: rest, s =>
    let d := buildChildData tpId c
    let created := s_create s c.entity_type d
      (gatedAttrCopy c.custom_attributes (schema c.entity_type))
    let step : Except (String × Session) (Session × Option Entity × CloneResult) :=
      match s_commit env created.2 with
      | (.ok, s2) => .ok (s2, some created.1, .created c.entity_type)
      | (.serverError msg, s2) =>
        if hasSubstr msg "DuplicateEntryError" then
          .ok (s_rollback s2, none, .skippedDuplicate)
        else if hasSubstr msg "ValidationError" then
          let s3 := s_rollback s2
          let fb := s_create s3 "Folder" (toFallbackData d)
            (gatedAttrCopy c.custom_attributes (schema "Folder"))
          match s_commit env fb.2 with
          | (.ok, s5) => .ok (s5, some fb.1, .createdAsFallback c.entity_type "Folder")
          | (.serverError m2, s5) => .ok (s_rollback s5, none, .skippedFailed m2)
          | (.otherError m2, s5) => .ok (s_rollback s5, none, .skippedFailed m2)
        else
          .error (msg, s_rollback s2)
      | (.otherError msg, s2) => .ok (s_rollback s2, none, .skippedFailed msg)
    match step with
    | .error es => .error es
    | .ok (s2, none, r) =>
      Except.map (fun p => (p.1, r :: p.2)) (cloneLoop env schema fuel tpId rest s2)
    | .ok (s2, some e, r) =>
      if c.entity_type ∈ leafKinds then
        Except.map (fun p => (p.1, r :: p.2)) (cloneLoop env schema fuel tpId rest s2)
      else
        match cloneLoop env schema fuel e.id (sortedChildren c.children) s2 with
        | .error es => .error es
        | .ok (s3, rs) =>
          Except.map (fun p => (p.1, r :: rs ++ p.2))
            (cloneLoop env schema fuel tpId rest s3)

/-- `_clone_recursive(source_parent, target_parent)`: sorts the source
parent's children (lines 190-193) and runs the loop. -/
def cloneRecursive (env : Env) (schema : Schema) (fuel : Nat)
    (sourceParent : SrcNode) (tpId : Nat) (s : Session) :
    Except (String × Session) (Session × List CloneResult) :=
  cloneLoop env schema fuel tpId (sortedChildren sourceParent.children) s

/-- The session state at the end of a clone run, whether it returned
normally or aborted with a propagated fatal error. -/
def outSession (r : Except (String × Session) (Session × List CloneResult)) :
    Session :=
  match r with
  | .ok (s, _) => s
  | .error (_, s) => s

/-- Names of the committed entities of a run, in commit order. -/
def runNames (r : Except (String × Session) (Session × List CloneResult)) :
    List String :=
  (outSession r).committed.map (fun e => e.data.name)

/-- Parent-before-child: walking the committed list in commit order, each
entity's parent is among the ids available so far (`avail` starts with the
pre-existing root's id and accumulates the ids of prior entities). -/
def parentBeforeChild (avail : List Nat) : List Entity → Prop
  | [] => True
  | e :: rest => e.data.parentId ∈ avail ∧ parentBeforeChild (e.id :: avail) rest

/-- The continuation of the loop body after a node has been successfully
created and committed (originally or as fallback): the custom attributes
copied onto the new entity are already part of `s2` (lines 270-278), the
clone recurses into the source node's children unless the source node's
entity type is a leaf kind (lines 281-282), and then continues with the
remaining siblings.  `eid` is the id of the entity just created, `r` the
record for the node. -/
def successCont (env : Env) (schema : Schema) (fuel tpId : Nat) (c : SrcNode)
    (rest : List SrcNode) (s2 : Session) (eid : Nat) (r : CloneResult) :
    Except (String × Session) (Session × List CloneResult) :=
  if c.entity_type ∈ leafKinds then
    Except.map (fun p => (p.1, r :: p.2)) (cloneLoop env schema fuel tpId rest s2)
  else
    match cloneLoop env schema fuel eid (sortedChildren c.children) s2 with
    | .error es => .error es
    | .ok (s3, rs) =>
      Except.map (fun p => (p.1, r :: rs ++ p.2)) (cloneLoop env schema fuel tpId rest s3)

/-- Status values of the tracking `Job` entity of `_process_form`. -/
inductive JobStatus where
  | running
  | done
  | failed
deriving DecidableEq

/-- The tracking job: its status and the description string stored in its
data field (the `json.dumps` wrapper of the code is not modelled, only the
description text). -/
structure Job where
  status : JobStatus
  data : String
deriving DecidableEq

/-- Line 125: the description the job starts with. -/
def startDesc (name : String) : String :=
  "Starting copy of project '" ++ name ++ "'."

/-- Line 132: the description on success. -/
def doneDesc (name : String) : String :=
  "Successfully copied project '" ++ name ++ "'."

/-- Line 137: the description on failure, with the exception text. -/
def failDesc (e : String) : String :=
  "ERROR: Could not copy project. Reason: " ++ e

/-- Lines 122-127: the job as created and committed before the clone
starts. -/
def initialJob (name : String) : Job :=
  ⟨.running, startDesc name⟩

/-- The try/except/finally of lines 130-140, given the outcome of
`_clone_project` as an exception monad value: on normal return the job is
set to done with the success description, on any raised exception to
failed with the error description; the boolean records that the `finally`
block committed the final state (it runs on both paths). -/
def processFormFinish (name : String) (cloneOutcome : Except String Unit) :
    Job × Bool :=
  match cloneOutcome with
  | .ok _ => (⟨.done, doneDesc name⟩, true)
  | .error e => (⟨.failed, failDesc e⟩, true)

/-- A source node with only entity type and name set; all optional
attributes absent, no custom attributes, no children. -/
def baseNode (etype nm : String) : SrcNode :=
  ⟨etype, nm, none, none, none, none, none, none, none, [], []⟩

/-- A server oracle accepting every create attempt. -/
def envAllOk : Env := fun _ _ => .ok

/-- A target schema defining no custom-attribute keys. -/
def schemaEmpty : Schema := fun _ => []

/-- A server oracle for which committing the node named "conn" raises a
connection fault of an exception class that is not `ServerError` (as
`requests.exceptions.ConnectionError` is); every other create succeeds. -/
def envConnDown : Env := fun _ d =>
  if d.name = "conn" then .otherError "ConnectionError: server unreachable" else .ok

/-- The node whose creation hits the connection fault. -/
def nodeConn : SrcNode := baseNode "Shot" "conn"

/-- A sibling processed after the faulting node. -/
def nodeAfter : SrcNode := baseNode "Shot" "after"

/-- A server oracle raising, on every commit, a `ServerError` whose
message indicates neither a duplicate entry nor a validation failure. -/
def envServerFault : Env := fun _ _ => .serverError "Internal server fault"

/-- A `Task` source node carrying a task type. -/
def taskNode : SrcNode := { baseNode "Task" "anim" with type := some "Animation" }

/-- A server oracle rejecting `Task` creation with a schema-validation
error and accepting everything else, in particular the `Folder`
fallback. -/
def envValTask : Env := fun etype _ =>
  if etype = "Task" then .serverError "ValidationError: Object type not permitted"
  else .ok

/-- Child with absent position, first in discovery order. -/
def nodeA : SrcNode := baseNode "Shot" "a"

/-- Child with position 2. -/
def nodeB : SrcNode := { baseNode "Shot" "b" with position := some 2 }

/-- Child with absent position, second in discovery order. -/
def nodeC : SrcNode := baseNode "Shot" "c"

/-- Child with position 1. -/
def nodeD : SrcNode := { baseNode "Shot" "d" with position := some 1 }

/-- A source parent whose children carry positions `[None, 2, None, 1]`
in discovery order. -/
def exParent : SrcNode :=
  { baseNode "Sequence" "seq" with children := [nodeA, nodeB, nodeC, nodeD] }

/-- A node already present in the target. -/
def nodeDup : SrcNode := baseNode "Shot" "Lighting"

/-- A server oracle reporting a duplicate entry for every commit, as a
target already containing the nodes would. -/
def envDup : Env := fun _ _ => .serverError "ServerError: DuplicateEntryError detected"

/-- A `Shot` source node with custom attributes `fps` and `shot_status`. -/
def shotNode : SrcNode :=
  { baseNode "Shot" "sh010" with custom_attributes := [("fps", "24"), ("shot_status", "ip")] }

/-- A target schema defining only the custom-attribute key "fps". -/
def schemaFps : Schema := fun _ => ["fps"]

/-- A `Task` source node reporting a non-empty child list. -/
def taskWithKids : SrcNode :=
  { baseNode "Task" "comp" with children := [baseNode "Shot" "kid"] }

/-- A non-leaf source node with a child. -/
def seqWithKids : SrcNode :=
  { baseNode "Sequence" "sq" with children := [baseNode "Shot" "kid2"] }

/-- A server oracle rejecting every same-kind create with a validation
error and then rejecting the `Folder` fallback with an unrelated server
error, so that both failure paths run their rollbacks. -/
def envAllVal : Env := fun etype _ =>
  if etype = "Folder" then .serverError "ServerError: fallback rejected"
  else .serverError "ValidationError: Object type not permitted"

theorem commitCheck_one (env : Env) (e : Entity) :
    commitCheck env [e] = env e.entity_type e.data := by
  cases h : env e.entity_type e.data <;> simp [commitCheck, h]

theorem step_ok (env : Env) (schema : Schema) (fuel tpId : Nat) (c : SrcNode)
    (rest : List SrcNode) (s : Session)
    (hpend : s.pending = [])
    (henv : env c.entity_type (buildChildData tpId c) = .ok) :
    cloneLoop env schema (fuel + 1) tpId (c :: rest) s =
      successCont env schema fuel tpId c rest
        ⟨s.nextId + 1,
         s.committed ++ [⟨s.nextId, c.entity_type, buildChildData tpId c,
           gatedAttrCopy c.custom_attributes (schema c.entity_type)⟩], []⟩
        s.nextId (.created c.entity_type) := by
  simp only [cloneLoop, successCont, s_create, s_commit, s_rollback, hpend,
    List.nil_append, commitCheck_one, henv]

theorem step_dup (env : Env) (schema : Schema) (fuel tpId : Nat) (c : SrcNode)
    (rest : List SrcNode) (s : Session) (msg : String)
    (hpend : s.pending = [])
    (henv : env c.entity_type (buildChildData tpId c) = .serverError msg)
    (hdup : hasSubstr msg "DuplicateEntryError" = true) :
    cloneLoop env schema (fuel + 1) tpId (c :: rest) s =
      Except.map (fun p => (p.1, CloneResult.skippedDuplicate :: p.2))
        (cloneLoop env schema fuel tpId rest ⟨s.nextId + 1, s.committed, []⟩) := by
  simp only [cloneLoop, s_create, s_commit, s_rollback, hpend, List.nil_append,
    commitCheck_one, henv, hdup, if_true]

theorem step_validation_ok (env : Env) (schema : Schema) (fuel tpId : Nat)
    (c : SrcNode) (rest : List SrcNode) (s : Session) (msg : String)
    (hpend : s.pending = [])
    (henv : env c.entity_type (buildChildData tpId c) = .serverError msg)
    (hdup : hasSubstr msg "DuplicateEntryError" = false)
    (hval : hasSubstr msg "ValidationError" = true)
    (hfb : env "Folder" (toFallbackData (buildChildData tpId c)) = .ok) :
    cloneLoop env schema (fuel + 1) tpId (c :: rest) s =
      successCont env schema fuel tpId c rest
        ⟨s.nextId + 2,
         s.committed ++ [⟨s.nextId + 1, "Folder", toFallbackData (buildChildData tpId c),
           gatedAttrCopy c.custom_attributes (schema "Folder")⟩], []⟩
        (s.nextId + 1) (.createdAsFallback c.entity_type "Folder") := by
  simp only [cloneLoop, successCont, s_create, s_commit, s_rollback, hpend,
    List.nil_append, commitCheck_one, henv, hdup, hval, hfb,
    Bool.false_eq_true, if_false, if_true]

theorem step_fallback_failed (env : Env) (schema : Schema) (fuel tpId : Nat)
    (c : SrcNode) (rest : List SrcNode) (s : Session) (msg m2 : String)
    (hpend : s.pending = [])
    (henv : env c.entity_type (buildChildData tpId c) = .serverError msg)
    (hdup : hasSubstr msg "DuplicateEntryError" = false)
    (hval : hasSubstr msg "ValidationError" = true)
    (hfb : env "Folder" (toFallbackData (buildChildData tpId c)) = .serverError m2 ∨
           env "Folder" (toFallbackData (buildChildData tpId c)) = .otherError m2) :
    cloneLoop env schema (fuel + 1) tpId (c :: rest) s =
      Except.map (fun p => (p.1, CloneResult.skippedFailed m2 :: p.2))
        (cloneLoop env schema fuel tpId rest ⟨s.nextId + 2, s.committed, []⟩) := by
  rcases hfb with hfb | hfb <;>
  simp only [cloneLoop, s_create, s_commit, s_rollback, hpend, List.nil_append,
    commitCheck_one, henv, hdup, hval, hfb, Bool.false_eq_true, if_false, if_true]

theorem step_fatal (env : Env) (schema : Schema) (fuel tpId : Nat) (c : SrcNode)
    (rest : List SrcNode) (s : Session) (msg : String)
    (hpend : s.pending = [])
    (henv : env c.entity_type (buildChildData tpId c) = .serverError msg)
    (hdup : hasSubstr msg "DuplicateEntryError" = false)
    (hval : hasSubstr msg "ValidationError" = false) :
    cloneLoop env schema (fuel + 1) tpId (c :: rest) s =
      .error (msg, ⟨s.nextId + 1, s.committed, []⟩) := by
  simp only [cloneLoop, s_create, s_commit, s_rollback, hpend, List.nil_append,
    commitCheck_one, henv, hdup, hval, Bool.false_eq_true, if_false]

theorem step_other (env : Env) (schema : Schema) (fuel tpId : Nat) (c : SrcNode)
    (rest : List SrcNode) (s : Session) (msg : String)
    (hpend : s.pending = [])
    (henv : env c.entity_type (buildChildData tpId c) = .otherError msg) :
    cloneLoop env schema (fuel + 1) tpId (c :: rest) s =
      Except.map (fun p => (p.1, CloneResult.skippedFailed msg :: p.2))
        (cloneLoop env schema fuel tpId rest ⟨s.nextId + 1, s.committed, []⟩) := by
  simp only [cloneLoop, s_create, s_commit, s_rollback, hpend, List.nil_append,
    commitCheck_one, henv]

theorem outSession_map (f : List CloneResult → List CloneResult)
    (x : Except (String × Session) (Session × List CloneResult)) :
    outSession (Except.map (fun p => (p.1, f p.2)) x) = outSession x := by
  cases x <;> rfl

theorem parentBeforeChild_mono :
    ∀ (l : List Entity) {A B : List Nat}, (∀ x ∈ A, x ∈ B) →
      parentBeforeChild A l → parentBeforeChild B l
  | [], _, _, _, _ => trivial
  | e :: rest, _, _, hAB, h =>
    ⟨hAB _ h.1,
     parentBeforeChild_mono rest
       (by
         intro x hx
         rcases List.mem_cons.mp hx with hx | hx
         · exact hx ▸ List.mem_cons_self _ _
         · exact List.mem_cons_of_mem _ (hAB _ hx))
       h.2⟩

theorem parentBeforeChild_append :
    ∀ (l1 l2 : List Entity) (A : List Nat),
      parentBeforeChild A l1 →
      parentBeforeChild (l1.map Entity.id ++ A) l2 →
      parentBeforeChild A (l1 ++ l2)
  | [], l2, A, _, h2 => by simpa using h2
  | e :: l1, l2, A, h1, h2 => by
    refine ⟨h1.1, parentBeforeChild_append l1 l2 (e.id :: A) h1.2 ?_⟩
    refine parentBeforeChild_mono l2 ?_ h2
    intro x hx
    simp only [List.map_cons, List.cons_append, List.mem_cons, List.mem_append] at hx ⊢
    tauto

/-- Joint state invariant of one `cloneLoop` call. -/
theorem cloneLoop_inv (fuel : Nat) :
    ∀ (env : Env) (schema : Schema) (tpId : Nat) (cs : List SrcNode) (s : Session),
      s.pending = [] →
      (outSession (cloneLoop env schema fuel tpId cs s)).pending = [] ∧
      ∃ Δ, (outSession (cloneLoop env schema fuel tpId cs s)).committed = s.committed ++ Δ ∧
        parentBeforeChild [tpId] Δ := by
  induction fuel with
  | zero =>
    intro env schema tpId cs s hpend
    exact ⟨hpend, [], by simp [cloneLoop, outSession], trivial⟩
  | succ n ih =>
    intro env schema tpId cs s hpend
    cases cs with
    | nil => exact ⟨hpend, [], by simp [cloneLoop, outSession], trivial⟩
    | cons c rest =>
      have hsub : ∀ (e0 : Entity) (x : Nat), x ∈ ([e0.id] : List Nat) → x ∈ [e0.id, tpId] := by
        intro e0 x hx; simp at hx ⊢; tauto
      have hsub2 : ∀ (e0 : Entity) (x : Nat), x ∈ ([tpId] : List Nat) → x ∈ [e0.id, tpId] := by
        intro e0 x hx; simp at hx ⊢; tauto
      have key : ∀ (e0 : Entity) (nid : Nat) (r : CloneResult),
          e0.data.parentId = tpId →
          (outSession (successCont env schema n tpId c rest ⟨nid, s.committed ++ [e0], []⟩ e0.id r)).pending = [] ∧
          ∃ Δ, (outSession (successCont env schema n tpId c rest ⟨nid, s.committed ++ [e0], []⟩ e0.id r)).committed =
            s.committed ++ Δ ∧ parentBeforeChild [tpId] Δ := by
        intro e0 nid r hpar
        by_cases hleaf : c.entity_type ∈ leafKinds
        · simp only [successCont, hleaf, if_true]
          obtain ⟨hp, Δ, hc, hb⟩ := ih env schema tpId rest ⟨nid, s.committed ++ [e0], []⟩ rfl
          refine ⟨by rw [outSession_map]; exact hp, e0 :: Δ, ?_,
            ⟨by simp [hpar], parentBeforeChild_mono Δ (hsub2 e0) hb⟩⟩
          rw [outSession_map, hc]
          simp
        · simp only [successCont, hleaf, if_false]
          obtain ⟨hp1, Δ1, hc1, hb1⟩ := ih env schema e0.id (sortedChildren c.children)
            ⟨nid, s.committed ++ [e0], []⟩ rfl
          cases hr1 : cloneLoop env schema n e0.id (sortedChildren c.children)
              ⟨nid, s.committed ++ [e0], []⟩ with
          | error es =>
            rw [hr1] at hp1 hc1
            refine ⟨hp1, e0 :: Δ1, ?_, ⟨by simp [hpar], ?_⟩⟩
            · simpa [outSession] using hc1
            · exact parentBeforeChild_mono Δ1 (hsub e0) hb1
          | ok p =>
            obtain ⟨s3, rs⟩ := p
            rw [hr1] at hp1 hc1
            simp only [outSession] at hp1 hc1
            obtain ⟨hp2, Δ2, hc2, hb2⟩ := ih env schema tpId rest s3 hp1
            refine ⟨by rw [outSession_map]; exact hp2,
              e0 :: (Δ1 ++ Δ2), ?_, ⟨by simp [hpar], ?_⟩⟩
            · rw [outSession_map, hc2, hc1]
              simp
            · refine parentBeforeChild_append Δ1 Δ2 _
                (parentBeforeChild_mono Δ1 (hsub e0) hb1) ?_
              refine parentBeforeChild_mono Δ2 ?_ hb2
              intro x hx
              simp at hx ⊢
              tauto
      have skip : ∀ (nid : Nat) (r : CloneResult),
          (outSession (Except.map (fun p => (p.1, r :: p.2))
            (cloneLoop env schema n tpId rest ⟨nid, s.committed, []⟩))).pending = [] ∧
          ∃ Δ, (outSession (Except.map (fun p => (p.1, r :: p.2))
            (cloneLoop env schema n tpId rest ⟨nid, s.committed, []⟩))).committed =
            s.committed ++ Δ ∧ parentBeforeChild [tpId] Δ := by
        intro nid r
        obtain ⟨hp, Δ, hc, hb⟩ := ih env schema tpId rest ⟨nid, s.committed, []⟩ rfl
        exact ⟨by rw [outSession_map]; exact hp, Δ, by rw [outSession_map]; exact hc, hb⟩
      cases henv : env c.entity_type (buildChildData tpId c) with
      | ok =>
        rw [step_ok env schema n tpId c rest s hpend henv]
        exact key ⟨s.nextId, c.entity_type, buildChildData tpId c,
          gatedAttrCopy c.custom_attributes (schema c.entity_type)⟩ (s.nextId + 1)
          (.created c.entity_type) rfl
      | otherError msg =>
        rw [step_other env schema n tpId c rest s msg hpend henv]
        exact skip (s.nextId + 1) (.skippedFailed msg)
      | serverError msg =>
        by_cases hdup : hasSubstr msg "DuplicateEntryError" = true
        · rw [step_dup env schema n tpId c rest s msg hpend henv hdup]
          exact skip (s.nextId + 1) .skippedDuplicate
        · have hdup' : hasSubstr msg "DuplicateEntryError" = false := by
            simpa using hdup
          by_cases hval : hasSubstr msg "ValidationError" = true
          · cases hfb : env "Folder" (toFallbackData (buildChildData tpId c)) with
            | ok =>
              rw [step_validation_ok env schema n tpId c rest s msg hpend henv hdup' hval hfb]
              exact key ⟨s.nextId + 1, "Folder", toFallbackData (buildChildData tpId c),
                gatedAttrCopy c.custom_attributes (schema "Folder")⟩ (s.nextId + 2)
                (.createdAsFallback c.entity_type "Folder") rfl
            | serverError m2 =>
              rw [step_fallback_failed env schema n tpId c rest s msg m2 hpend henv hdup' hval (Or.inl hfb)]
              exact skip (s.nextId + 2) (.skippedFailed m2)
            | otherError m2 =>
              rw [step_fallback_failed env schema n tpId c rest s msg m2 hpend henv hdup' hval (Or.inr hfb)]
              exact skip (s.nextId + 2) (.skippedFailed m2)
          · have hval' : hasSubstr msg "ValidationError" = false := by
              simpa using hval
            rw [step_fatal env schema n tpId c rest s msg hpend henv hdup' hval']
            exact ⟨rfl, [], by simp [outSession], trivial⟩

theorem filter_orderedInsert_key (k : Int) (a : SrcNode) :
    ∀ l : List SrcNode,
      (List.orderedInsert keyLe a l).filter (fun c => decide (sortKey c = k)) =
      if sortKey a = k then
        a :: l.filter (fun c => decide (sortKey c = k))
      else l.filter (fun c => decide (sortKey c = k))
  | [] => by
    by_cases h : sortKey a = k <;> simp [List.orderedInsert, h]
  | b :: l => by
    by_cases hab : keyLe a b
    · by_cases h : sortKey a = k <;> simp [List.orderedInsert, hab, h]
    · have hba : sortKey b < sortKey a := by
        simpa [keyLe, not_le] using hab
      by_cases h : sortKey a = k
      · have hbk : ¬ sortKey b = k := by
          intro hbk2
          rw [hbk2, h] at hba
          exact lt_irrefl k hba
        simp [List.orderedInsert, hab, h, hbk, filter_orderedInsert_key k a l]
      · by_cases hbk : sortKey b = k <;>
          simp [List.orderedInsert, hab, h, hbk, filter_orderedInsert_key k a l]

theorem filter_insertionSort_key (k : Int) :
    ∀ l : List SrcNode,
      (List.insertionSort keyLe l).filter (fun c => decide (sortKey c = k)) =
      l.filter (fun c => decide (sortKey c = k))
  | [] => rfl
  | a :: l => by
    by_cases h : sortKey a = k <;>
      simp [List.insertionSort, filter_orderedInsert_key, filter_insertionSort_key k l, h]

theorem buildChildData_set_children (tpId : Nat) (c : SrcNode) (ch' : List SrcNode) :
    buildChildData tpId { c with children := ch' } = buildChildData tpId c := rfl

theorem cloneLoop_leaf_children_irrelevant (env : Env) (schema : Schema)
    (fuel tpId : Nat) (c : SrcNode) (rest : List SrcNode) (s : Session)
    (ch' : List SrcNode) (hleaf : c.entity_type ∈ leafKinds) :
    cloneLoop env schema fuel tpId ({ c with children := ch' } :: rest) s =
      cloneLoop env schema fuel tpId (c :: rest) s := by
  cases fuel with
  | zero => rfl
  | succ n =>
    simp only [cloneLoop, buildChildData_set_children]
    simp only [hleaf, if_true]

/-- C1, counterexample.  The claim says a creation failure that is neither
duplicate-name nor schema-validation is always propagated as fatal and
never treated as a per-node skip.  But lines 265-268 catch every exception
that is not an `ftrack_api.exception.ServerError`, roll back and
`continue`: with a connection fault of a non-`ServerError` class on the
first node, the clone returns normally, records a per-node skip, and even
goes on to create the next sibling. -/
theorem c1_counterexample :
    cloneLoop envConnDown schemaEmpty 3 0 [nodeConn, nodeAfter] ⟨1, [], []⟩ =
      .ok (⟨3, [⟨2, "Shot", buildChildData 0 nodeAfter, []⟩], []⟩,
        [.skippedFailed "ConnectionError: server unreachable", .created "Shot"]) :=
  rfl

/-- C1, amended: only a failure raised as `ServerError` whose message
indicates neither the duplicate-name class nor the schema-validation class
is re-raised (line 264), aborting the whole remaining traversal with the
session rolled back; a failure of any other exception class is swallowed
by lines 265-268 and treated as a per-node skip. -/
theorem c1_theorem (env : Env) (schema : Schema) (fuel tpId : Nat) (c : SrcNode)
    (rest : List SrcNode) (s : Session) (msg : String)
    (hpend : s.pending = [])
    (henv : env c.entity_type (buildChildData tpId c) = .serverError msg)
    (hdup : hasSubstr msg "DuplicateEntryError" = false)
    (hval : hasSubstr msg "ValidationError" = false) :
    cloneLoop env schema (fuel + 1) tpId (c :: rest) s =
      .error (msg, ⟨s.nextId + 1, s.committed, []⟩) :=
  step_fatal env schema fuel tpId c rest s msg hpend henv hdup hval

/-- C1, witness: a plain server fault on the first of two siblings aborts
the run with a fatal error; the second sibling is never attempted. -/
theorem c1_witness :
    cloneLoop envServerFault schemaEmpty 3 0 [nodeConn, nodeAfter] ⟨1, [], []⟩ =
      .error ("Internal server fault", ⟨2, [], []⟩) :=
  c1_theorem envServerFault schemaEmpty 2 0 nodeConn [nodeAfter] ⟨1, [], []⟩
    "Internal server fault" rfl rfl (by decide) (by decide)

/-- C2, counterexample.  The claim says the fallback strips all
kind-specific fields including the task type.  But lines 249-251 pop only
`object_type_id`, `fstart` and `fend`: for a `Task` rejected by the
schema, the `type` key set at line 218 is still present in the data of the
`Folder` fallback entity that gets created. -/
theorem c2_counterexample :
    cloneLoop envValTask schemaEmpty 2 0 [taskNode] ⟨1, [], []⟩ =
      .ok (⟨3, [⟨2, "Folder", toFallbackData (buildChildData 0 taskNode), []⟩], []⟩,
        [.createdAsFallback "Task" "Folder"]) ∧
    (toFallbackData (buildChildData 0 taskNode)).type = some (some "Animation") :=
  ⟨rfl, rfl⟩

/-- C2, amended: on a schema-validation failure the clone strips the frame
range and the explicit type identifier from the candidate attribute set —
but not the task type field — and retries creation as the generic fallback
container kind `Folder`, recording `CreatedAsFallback(original_kind,
Folder)` on success; the name, parent and description are retained. -/
theorem c2_theorem (env : Env) (schema : Schema) (fuel tpId : Nat)
    (c : SrcNode) (rest : List SrcNode) (s : Session) (msg : String)
    (hpend : s.pending = [])
    (henv : env c.entity_type (buildChildData tpId c) = .serverError msg)
    (hdup : hasSubstr msg "DuplicateEntryError" = false)
    (hval : hasSubstr msg "ValidationError" = true)
    (hfb : env "Folder" (toFallbackData (buildChildData tpId c)) = .ok) :
    cloneLoop env schema (fuel + 1) tpId (c :: rest) s =
      successCont env schema fuel tpId c rest
        ⟨s.nextId + 2, s.committed ++ [⟨s.nextId + 1, "Folder",
          toFallbackData (buildChildData tpId c),
          gatedAttrCopy c.custom_attributes (schema "Folder")⟩], []⟩
        (s.nextId + 1) (.createdAsFallback c.entity_type "Folder") ∧
    (toFallbackData (buildChildData tpId c)).object_type_id = none ∧
    (toFallbackData (buildChildData tpId c)).fstart = none ∧
    (toFallbackData (buildChildData tpId c)).fend = none ∧
    (toFallbackData (buildChildData tpId c)).type = (buildChildData tpId c).type ∧
    (toFallbackData (buildChildData tpId c)).name = c.name ∧
    (toFallbackData (buildChildData tpId c)).parentId = tpId :=
  ⟨step_validation_ok env schema fuel tpId c rest s msg hpend henv hdup hval hfb,
   rfl, rfl, rfl, rfl, rfl, rfl⟩

/-- C2, witness: the amended statement at the concrete rejected `Task`. -/
theorem c2_witness :
    (cloneLoop envValTask schemaEmpty 2 0 [taskNode] ⟨1, [], []⟩ =
      successCont envValTask schemaEmpty 1 0 taskNode []
        ⟨3, [⟨2, "Folder", toFallbackData (buildChildData 0 taskNode), []⟩], []⟩
        2 (.createdAsFallback "Task" "Folder") ∧
    (toFallbackData (buildChildData 0 taskNode)).object_type_id = none ∧
    (toFallbackData (buildChildData 0 taskNode)).fstart = none ∧
    (toFallbackData (buildChildData 0 taskNode)).fend = none ∧
    (toFallbackData (buildChildData 0 taskNode)).type = (buildChildData 0 taskNode).type ∧
    (toFallbackData (buildChildData 0 taskNode)).name = "anim" ∧
    (toFallbackData (buildChildData 0 taskNode)).parentId = 0) :=
  c2_theorem envValTask schemaEmpty 1 0 taskNode [] ⟨1, [], []⟩
    "ValidationError: Object type not permitted" rfl rfl (by decide) (by decide) rfl

/-- C3, counterexample.  The claim's own example is wrong: with positions
`[None, 2, None, 1]` and absent positions treated as `0`, the two
position-less children sort before position 1, so the processing order is
`[None#1, None#2, 1, 2]` (names `a, c, d, b`), not the claimed
`[1, None#1, None#2, 2]` (names `d, a, c, b`); the committed creation
order of a full run shows the same. -/
theorem c3_counterexample :
    runNames (cloneRecursive envAllOk schemaEmpty 10 exParent 0 ⟨1, [], []⟩) =
      ["a", "c", "d", "b"] ∧
    (sortedChildren exParent.children).map SrcNode.name = ["a", "c", "d", "b"] ∧
    ¬ (sortedChildren exParent.children).map SrcNode.name = ["d", "a", "c", "b"] :=
  ⟨rfl, rfl, by decide⟩

/-- C3, amended: children are processed in ascending order of the sort
key (`sort` or `position`, with absent and zero values falling through to
0), stable by discovery order among equal keys; for a node without a
`sort` attribute the key is its position with absent treated as 0.  For
positions `[None, 2, None, 1]` the processing order is therefore
`[None#1, None#2, 1, 2]`. -/
theorem c3_theorem :
    (∀ l : List SrcNode, List.Sorted keyLe (sortedChildren l)) ∧
    (∀ l : List SrcNode, List.Perm (sortedChildren l) l) ∧
    (∀ (l : List SrcNode) (k : Int),
      (sortedChildren l).filter (fun c => decide (sortKey c = k)) =
        l.filter (fun c => decide (sortKey c = k))) ∧
    (∀ c : SrcNode, c.sort = none → sortKey c = c.position.getD 0) :=
  ⟨fun l => List.sorted_insertionSort keyLe l,
   fun l => List.perm_insertionSort keyLe l,
   fun l k => filter_insertionSort_key k l,
   fun c hc => by
     cases hp : c.position with
     | none => simp [sortKey, pyOr, hc, hp]
     | some p =>
       by_cases hz : p = 0 <;> simp [sortKey, pyOr, hc, hp, hz]⟩

/-- C3, witness: the key of a node with absent `sort` and position 2. -/
theorem c3_witness : sortKey nodeB = Option.getD nodeB.position 0 :=
  c3_theorem.2.2.2 nodeB rfl

/-- C4: a duplicate-name failure records `SkippedDuplicate`, commits
nothing for the node, never recurses into its children (the result does
not depend on them at all), and continues with the next sibling from the
rolled-back session.  Because the oracle is arbitrary, this also gives the
idempotence property: re-running against a partially populated target, the
already-present nodes are classified `SkippedDuplicate` and the remainder
continues. -/
theorem c4_theorem (env : Env) (schema : Schema) (fuel tpId : Nat) (c : SrcNode)
    (rest : List SrcNode) (s : Session) (msg : String)
    (hpend : s.pending = [])
    (henv : env c.entity_type (buildChildData tpId c) = .serverError msg)
    (hdup : hasSubstr msg "DuplicateEntryError" = true) :
    cloneLoop env schema (fuel + 1) tpId (c :: rest) s =
      Except.map (fun p => (p.1, CloneResult.skippedDuplicate :: p.2))
        (cloneLoop env schema fuel tpId rest ⟨s.nextId + 1, s.committed, []⟩) ∧
    ∀ ch' : List SrcNode,
      cloneLoop env schema (fuel + 1) tpId ({ c with children := ch' } :: rest) s =
        cloneLoop env schema (fuel + 1) tpId (c :: rest) s :=
  ⟨step_dup env schema fuel tpId c rest s msg hpend henv hdup,
   fun ch' =>
     (step_dup env schema fuel tpId { c with children := ch' } rest s msg hpend henv hdup).trans
       (step_dup env schema fuel tpId c rest s msg hpend henv hdup).symm⟩

/-- C4, witness: re-running against a target that already contains the
nodes skips "Lighting" as a duplicate and continues with its sibling. -/
theorem c4_witness :
    cloneLoop envDup schemaEmpty 2 0 [nodeDup, nodeAfter] ⟨1, [], []⟩ =
      Except.map (fun p => (p.1, CloneResult.skippedDuplicate :: p.2))
        (cloneLoop envDup schemaEmpty 1 0 [nodeAfter] ⟨2, [], []⟩) :=
  (c4_theorem envDup schemaEmpty 1 0 nodeDup [nodeAfter] ⟨1, [], []⟩
    "ServerError: DuplicateEntryError detected" rfl rfl (by decide)).1

/-- C5: on a successful creation, the entity committed for the node
carries exactly the schema-gated attribute copy, and a source key/value
pair is copied to the new node iff that key exists among the created
node's custom-attribute keys; keys absent from the target schema are
silently dropped (the copy is a total function and raises nothing). -/
theorem c5_theorem (env : Env) (schema : Schema) (fuel tpId : Nat) (c : SrcNode)
    (rest : List SrcNode) (s : Session)
    (hpend : s.pending = [])
    (henv : env c.entity_type (buildChildData tpId c) = .ok) :
    cloneLoop env schema (fuel + 1) tpId (c :: rest) s =
      successCont env schema fuel tpId c rest
        ⟨s.nextId + 1, s.committed ++ [⟨s.nextId, c.entity_type, buildChildData tpId c,
          gatedAttrCopy c.custom_attributes (schema c.entity_type)⟩], []⟩
        s.nextId (.created c.entity_type) ∧
    ∀ k v : String,
      ((k, v) ∈ gatedAttrCopy c.custom_attributes (schema c.entity_type) ↔
        (k, v) ∈ c.custom_attributes ∧ k ∈ schema c.entity_type) :=
  ⟨step_ok env schema fuel tpId c rest s hpend henv,
   fun k v => by simp [gatedAttrCopy, List.mem_filter]⟩

/-- C5, witness: for a shot with attributes `fps` and `shot_status` and a
target schema defining only `fps`, the committed entity carries only
`fps`; `shot_status` is silently dropped. -/
theorem c5_witness :
    (cloneLoop envAllOk schemaFps 2 0 [shotNode] ⟨1, [], []⟩ =
      successCont envAllOk schemaFps 1 0 shotNode []
        ⟨2, [⟨1, "Shot", buildChildData 0 shotNode, [("fps", "24")]⟩], []⟩
        1 (.created "Shot") ∧
    ∀ k v : String,
      ((k, v) ∈ gatedAttrCopy shotNode.custom_attributes (schemaFps "Shot") ↔
        (k, v) ∈ shotNode.custom_attributes ∧ k ∈ schemaFps "Shot")) :=
  c5_theorem envAllOk schemaFps 1 0 shotNode [] ⟨1, [], []⟩ rfl rfl

/-- C6: starting from a fresh session right after the target root
(id `rootId`) was created and committed, every entity in the committed
list of a clone run — whether the run returns normally or aborts with a
fatal error — has as parent either the root or an entity committed
strictly earlier: creations are always parent-before-child. -/
theorem c6_theorem (env : Env) (schema : Schema) (fuel : Nat) (src : SrcNode)
    (rootId : Nat) :
    parentBeforeChild [rootId]
      (outSession (cloneRecursive env schema fuel src rootId
        ⟨rootId + 1, [], []⟩)).committed := by
  obtain ⟨-, Δ, hc, hb⟩ := cloneLoop_inv fuel env schema rootId
    (sortedChildren src.children) ⟨rootId + 1, [], []⟩ rfl
  simp only [cloneRecursive]
  rw [hc]
  simpa using hb

/-- C7: for a source node of a leaf kind (`Task`, `Milestone`) the result
of the clone does not depend on the node's reported children at all — they
are never visited, whatever the creation outcome; for a node of any other
kind whose same-kind creation succeeds, the clone recurses into the
node's sorted children under the newly created entity before moving to the
next sibling (the fallback-success path recurses likewise, see the C2
theorem). -/
theorem c7_theorem (env : Env) (schema : Schema) (fuel tpId : Nat) (c : SrcNode)
    (rest : List SrcNode) (s : Session) :
    (c.entity_type ∈ leafKinds →
      ∀ ch' : List SrcNode,
        cloneLoop env schema fuel tpId ({ c with children := ch' } :: rest) s =
          cloneLoop env schema fuel tpId (c :: rest) s) ∧
    (c.entity_type ∉ leafKinds → s.pending = [] →
      env c.entity_type (buildChildData tpId c) = .ok →
      cloneLoop env schema (fuel + 1) tpId (c :: rest) s =
        match cloneLoop env schema fuel s.nextId (sortedChildren c.children)
            ⟨s.nextId + 1, s.committed ++ [⟨s.nextId, c.entity_type, buildChildData tpId c,
              gatedAttrCopy c.custom_attributes (schema c.entity_type)⟩], []⟩ with
        | .error es => .error es
        | .ok (s3, rs) =>
          Except.map (fun p => (p.1, CloneResult.created c.entity_type :: rs ++ p.2))
            (cloneLoop env schema fuel tpId rest s3)) :=
  ⟨fun hleaf ch' => cloneLoop_leaf_children_irrelevant env schema fuel tpId c rest s ch' hleaf,
   fun hleaf hpend henv => by
     rw [step_ok env schema fuel tpId c rest s hpend henv]
     simp only [successCont, hleaf, if_false]⟩

/-- C7, witness: a `Task` with a non-empty child list behaves exactly as
the same `Task` with no children; a `Sequence` recurses into its child. -/
theorem c7_witness :
    (cloneLoop envAllOk schemaEmpty 5 0 ({ taskWithKids with children := [] } :: []) ⟨1, [], []⟩ =
      cloneLoop envAllOk schemaEmpty 5 0 [taskWithKids] ⟨1, [], []⟩ ∧
    cloneLoop envAllOk schemaEmpty 2 0 [seqWithKids] ⟨1, [], []⟩ =
      (match cloneLoop envAllOk schemaEmpty 1 1 (sortedChildren seqWithKids.children)
          ⟨2, [⟨1, "Sequence", buildChildData 0 seqWithKids, []⟩], []⟩ with
      | .error es => .error es
      | .ok (s3, rs) =>
        Except.map (fun p => (p.1, CloneResult.created "Sequence" :: rs ++ p.2))
          (cloneLoop envAllOk schemaEmpty 1 0 [] s3))) :=
  ⟨(c7_theorem envAllOk schemaEmpty 5 0 taskWithKids [] ⟨1, [], []⟩).1 (by decide) [],
   (c7_theorem envAllOk schemaEmpty 1 0 seqWithKids [] ⟨1, [], []⟩).2 (by decide) rfl rfl⟩

/-- C8: started with no uncommitted operations, a clone run leaves the
session with no uncommitted operations whatever happens — normal return or
propagated fatal error — and its committed list is only ever extended:
every failed attempt was rolled back before the fallback, the next
sibling, or the raise, so no partially-applied state is ever visible. -/
theorem c8_theorem (env : Env) (schema : Schema) (fuel tpId : Nat)
    (cs : List SrcNode) (s : Session) (hpend : s.pending = []) :
    (outSession (cloneLoop env schema fuel tpId cs s)).pending = [] ∧
    ∃ Δ, (outSession (cloneLoop env schema fuel tpId cs s)).committed =
      s.committed ++ Δ :=
  ⟨(cloneLoop_inv fuel env schema tpId cs s hpend).1,
   (cloneLoop_inv fuel env schema tpId cs s hpend).2.elim fun Δ hΔ => ⟨Δ, hΔ.1⟩⟩

/-- C8, witness: with every same-kind create rejected by validation and
every `Folder` fallback rejected by a further server error, the run ends
with an empty pending list and an unchanged committed list. -/
theorem c8_witness :
    (outSession (cloneLoop envAllVal schemaEmpty 4 0 [nodeConn, nodeAfter] ⟨1, [], []⟩)).pending = [] ∧
    ∃ Δ, (outSession (cloneLoop envAllVal schemaEmpty 4 0 [nodeConn, nodeAfter] ⟨1, [], []⟩)).committed =
      [] ++ Δ :=
  c8_theorem envAllVal schemaEmpty 4 0 [nodeConn, nodeAfter] ⟨1, [], []⟩ rfl

/-- C9: the project-root copy of `_clone_project` (lines 176-177) writes
every source custom-attribute key unconditionally — membership never
depends on the target's key set — unlike the schema-gated copy used for
every descendant node, which drops keys the target does not define. -/
theorem c9_theorem :
    (∀ (srcAttrs : List (String × String)) (targetKeys : List String),
      projectAttrCopy srcAttrs targetKeys = srcAttrs) ∧
    (∀ (srcAttrs : List (String × String)) (targetKeys : List String) (k v : String),
      (k, v) ∈ projectAttrCopy srcAttrs targetKeys ↔ (k, v) ∈ srcAttrs) ∧
    projectAttrCopy [("shot_status", "ip")] [] = [("shot_status", "ip")] ∧
    gatedAttrCopy [("shot_status", "ip")] [] = [] :=
  ⟨fun _ _ => rfl, fun _ _ _ _ => Iff.rfl, rfl, rfl⟩

/-- C10: the tracking job is created in the `running` state, and whatever
the clone does — normal return or any raised exception — the
try/except/finally of `_process_form` leaves it in a terminal state
(`done` exactly on normal return, `failed` with the error text otherwise)
and the final state is committed on both paths. -/
theorem c10_theorem :
    (∀ (name : String) (o : Except String Unit),
      (processFormFinish name o).1.status = .done ∨
      (processFormFinish name o).1.status = .failed) ∧
    (∀ (name : String) (o : Except String Unit), (processFormFinish name o).2 = true) ∧
    (∀ name : String, processFormFinish name (.ok ()) = (⟨.done, doneDesc name⟩, true)) ∧
    (∀ name e : String, processFormFinish name (.error e) = (⟨.failed, failDesc e⟩, true)) ∧
    (∀ name : String, (initialJob name).status = .running) :=
  ⟨fun name o => by cases o with
    | ok u => exact Or.inl rfl
    | error e => exact Or.inr rfl,
   fun name o => by cases o <;> rfl,
   fun name => rfl,
   fun name e => rfl,
   fun name => rfl⟩
